import Mathlib

/-!
Verification development for the Balanced Distribution anomaly model of the
`rosbag_to_tfrecord` repository
(`anomaly_detector/anomaly_model/anomalyModelBalancedDistribution.py`, with the
persistence driver in `anomaly_detector/anomaly_model/anomalyModelBase.py`).

Shallow embedding conventions:
* The two class files ship from mismatched revisions.  The subclass's
  `generate_model` begins (line 67) with `AnomalyModelBase.generate_model(self,
  features)`, but the shipped `anomalyModelBase.py` has no attribute of that
  name — it defines the dunder hook `__generate_model__` instead — so the
  attribute lookup raises AttributeError on every call, before the logging of
  line 72, before the length assertion of line 74, and before any seeding.
  Symmetrically, the driver `load_or_generate` dispatches
  `self.__generate_model__` / `self.__save_model_to_file__` (base lines 107
  and 134), dunders the subclass never overrides (it defines the undundered
  `generate_model` / `save_model_to_file`), so the base NotImplementedError
  stubs raise before the store is opened.  The embedding models both shipped
  failures (`generate_model`, `load_or_generate`) and, separately and under
  explicit names, the unreachable method body as written
  (`generate_model_body` with its phases), since several claims are about
  that code text.
* Python floats are idealised as rationals (`ℚ`).  All the verified claims are
  control-flow properties (which vectors are appended, pruned, classified, and
  which failure fires), so they are independent of floating-point rounding.
  `ℚ` has no NaN; the one place NaN matters is the single-sample fit, where
  `np.cov` divides by `N-1 = 0` and yields a NaN covariance (a RuntimeWarning,
  not an exception) on which `np.linalg.pinv` then raises LinAlgError — the
  embedding models that composite library behaviour as the explicit
  `Err.linAlgError` outcome of `_calculate_mean_and_covariance` on a
  one-member set.
* `np.sqrt` (inside `scipy.spatial.distance.mahalanobis`) and `np.linalg.pinv`
  on well-formed input are external library routines; the embedding is
  parametric in them (`sqrtf : ℚ → ℚ` and `pinv : Mat → Mat`).  Every theorem
  below is proved for an arbitrary choice of the two, and witnesses
  instantiate them concretely (`pinv1` is the exact Moore-Penrose
  pseudo-inverse for 1×1 matrices, since `(0 : ℚ)⁻¹ = 0`).
* Python `assert` statements become `Except.error` outcomes; the error names
  follow the failure taxonomy of the design document where the code has a
  matching guard, and `Err.emptyDistribution` / `Err.indexError` /
  `Err.nameError` / `Err.attributeError` / `Err.notImplementedError` /
  `Err.linAlgError` name the failures the code actually produces where it
  diverges from that taxonomy.
* The cooperative interruption flag of `utils.GracefulInterruptHandler` is
  modelled as a predicate `intr : ℕ → Bool` on a counter of performed
  per-iteration checks (`h.interrupted` is polled once per loop iteration in
  both the growth and the pruning loop, with the counter running through both).
* Pure logging and progress printing (`logging.info`, `utils.print_progress`)
  is omitted, except where a logging statement actually touches data: line 72
  evaluates `len(features_flat[0])` (an IndexError on empty input, before the
  length assertion) and line 114 computes a Mahalanobis distance for every
  member of the post-growth set (modelled by `distanceScan`).
-/

/-- Feature vector: a list of rationals (Python: a 1-D numpy float array). -/
abbrev Vec : Type := List ℚ

/-- Matrix as a list of rows (Python: a 2-D numpy float array). -/
abbrev Mat : Type := List (List ℚ)

/-- Failure outcomes of the embedded operations.  `invalidParameter`,
`insufficientData`, `shapeMismatch` and `notFitted` correspond to the
`assert` statements of the source; `emptyDistribution` is the assertion of
`_calculate_mean_and_covariance` (which guards only against an empty set, not
against the degenerate single-sample case); `linAlgError` is the exception
`np.linalg.pinv` raises on the NaN covariance of a single-sample
`np.cov`; `indexError` is the `features_flat[0]` access of the logging call
on line 72; `nameError` is the unbound name `h5ffile` in
`save_model_to_file`; `attributeError` is the failed lookup
`AnomalyModelBase.generate_model` on line 67 (the shipped base class has no
such attribute); `notImplementedError` is the base-class dunder stub the
shipped driver dispatches to. -/
inductive Err : Type where
  | invalidParameter : Err
  | insufficientData : Err
  | shapeMismatch : Err
  | notFitted : Err
  | emptyDistribution : Err
  | linAlgError : Err
  | indexError : Err
  | nameError : Err
  | attributeError : Err
  | notImplementedError : Err
deriving DecidableEq, Repr

/-- State of an `AnomalyModelBalancedDistribution` instance: the four
hyperparameters, the retained set `balanced_distribution` (Python initialises
it to `None`), and the cached fitted statistics `_mean` and `_covI` (both
`None` until the first fit). -/
structure Model : Type where
  initial_normal_features : ℕ
  threshold_learning : ℚ
  threshold_classification : ℚ
  pruning_parameter : ℚ
  balanced_distribution : Option (List Vec)
  _mean : Option Vec
  _covI : Option Mat
deriving DecidableEq, Repr

/-- Constructor `__init__`: asserts `0 < pruning_parameter < 1` and starts with
no retained set and no fitted statistics.  (The Python defaults are
`initial_normal_features=1000, threshold_learning=20,
threshold_classification=5, pruning_parameter=0.5`; parameters are passed
explicitly here.) -/
def initModel (initial_normal_features : ℕ) (threshold_learning : ℚ)
    (threshold_classification : ℚ) (pruning_parameter : ℚ) : Except Err Model :=
  if 0 < pruning_parameter ∧ pruning_parameter < 1 then
    .ok { initial_normal_features := initial_normal_features
          threshold_learning := threshold_learning
          threshold_classification := threshold_classification
          pruning_parameter := pruning_parameter
          balanced_distribution := none
          _mean := none
          _covI := none }
  else .error .invalidParameter

/-- Dimension of the feature vectors of a retained set (numpy infers it from
the first row). -/
def dimOf (R : List Vec) : ℕ := (R.headD []).length

/-- Sum of column `j` of a list of vectors. -/
def colSum (R : List Vec) (j : ℕ) : ℚ := (R.map (fun r => r.getD j 0)).sum

/-- Componentwise arithmetic mean, `np.mean(R, axis=0)`. -/
def vecMean (R : List Vec) : Vec :=
  (List.range (dimOf R)).map (fun j => colSum R j / (R.length : ℚ))

/-- Entry `(j,k)` of the unbiased sample covariance `np.cov(R, rowvar=False)`,
with the `N-1` denominator.  For a single sample the denominator is `0`; in
`ℚ` the division then yields `0` where numpy yields NaN (neither is an
error). -/
def covEntry (R : List Vec) (μ : Vec) (j k : ℕ) : ℚ :=
  (R.map (fun r => (r.getD j 0 - μ.getD j 0) * (r.getD k 0 - μ.getD k 0))).sum
    / ((R.length : ℚ) - 1)

/-- Unbiased sample covariance matrix `np.cov(R, rowvar=False)`. -/
def covMatrix (R : List Vec) : Mat :=
  (List.range (dimOf R)).map (fun j =>
    (List.range (dimOf R)).map (fun k => covEntry R (vecMean R) j k))

/-- Componentwise difference `u - v` (`delta` in scipy's `mahalanobis`). -/
def vsub (u v : Vec) : Vec := (u.zip v).map (fun p => p.1 - p.2)

/-- Dot product of two vectors. -/
def dotQ (u v : Vec) : ℚ := ((u.zip v).map (fun p => p.1 * p.2)).sum

/-- Column `j` of a matrix. -/
def colOf (M : Mat) (j : ℕ) : Vec := M.map (fun row => row.getD j 0)

/-- Row-vector/matrix product `np.dot(delta, VI)`:
entry `j` is `Σ_i delta_i · VI[i][j]`. -/
def vecMat (v : Vec) (M : Mat) : Vec :=
  (List.range ((M.headD []).length)).map (fun j => dotQ v (colOf M j))

/-- Value computed by `scipy.spatial.distance.mahalanobis(x, μ, VI)` =
`sqrt(dot(dot(delta, VI), delta))` with `delta = x - μ`, parametric in the
square-root routine. -/
def mahaVal (sqrtf : ℚ → ℚ) (μ : Vec) (covI : Mat) (x : Vec) : ℚ :=
  sqrtf (dotQ (vecMat (vsub x μ) covI) (vsub x μ))

/-- Method `_calculate_mean_and_covariance`: asserts the retained set is
present and non-empty (only that — a singleton set passes the assertion),
then caches `_mean := np.mean(R, axis=0)` and
`_covI := np.linalg.pinv(np.cov(R, rowvar=False))`.  For a single-member set
the assertion passes and `np.mean` succeeds, but `np.cov` divides by
`N-1 = 0` and yields a NaN covariance, on which `np.linalg.pinv` raises
LinAlgError; `ℚ` has no NaN, so the embedding surfaces that composite library
failure as the explicit `Err.linAlgError` branch (the Python `self._mean`
mutation preceding the raise is dropped with the state, as for the other
error outcomes). -/
def _calculate_mean_and_covariance (pinv : Mat → Mat) (m : Model) :
    Except Err Model :=
  match m.balanced_distribution with
  | none => .error .emptyDistribution
  | some R =>
    if R.length = 0 then .error .emptyDistribution
    else if R.length = 1 then .error .linAlgError
    else .ok { m with _mean := some (vecMean R),
                      _covI := some (pinv (covMatrix R)) }

/-- Method `_mahalanobis_distance`: asserts `_covI` and `_mean` are set
(`notFitted` otherwise), asserts
`feature.shape[0] == _mean.shape[0] == _covI.shape[0] == _covI.shape[1]`
(`shapeMismatch` otherwise), then returns
`distance.mahalanobis(feature, _mean, _covI)`. -/
def _mahalanobis_distance (sqrtf : ℚ → ℚ) (m : Model) (x : Vec) :
    Except Err ℚ :=
  match m._mean, m._covI with
  | some μ, some covI =>
    if x.length = μ.length ∧ μ.length = covI.length ∧
        covI.length = (covI.headD []).length then
      .ok (mahaVal sqrtf μ covI x)
    else .error .shapeMismatch
  | _, _ => .error .notFitted

/-- Method `classify`: uses the override threshold when one is given, else the
configured `threshold_classification`; fits lazily when `_mean` or `_covI` is
still `None`; returns `_mahalanobis_distance(feature) > threshold` (strict
comparison).  The possibly lazily-fitted model state is returned alongside the
label. -/
def classify (sqrtf : ℚ → ℚ) (pinv : Mat → Mat) (m : Model) (x : Vec)
    (threshOverride : Option ℚ) : Except Err (Model × Bool) :=
  match (if m._mean = none ∨ m._covI = none then
          _calculate_mean_and_covariance pinv m
        else .ok m) with
  | .error e => .error e
  | .ok m1 =>
    match _mahalanobis_distance sqrtf m1 x with
    | .error e => .error e
    | .ok d => .ok (m1, decide (threshOverride.getD m.threshold_classification < d))

/-- Growth loop of `generate_model` (lines 90-110): one check of the
interruption flag per iteration (on observation: discard the retained set and
return `False`), then the Mahalanobis distance of the candidate under the
currently cached statistics; on `dist > threshold_learning` the candidate is
appended (`np.append`) and the statistics are refitted at once; otherwise
nothing is mutated and nothing is refitted.  `t` counts the interruption
checks performed so far. -/
def growthLoop (sqrtf : ℚ → ℚ) (pinv : Mat → Mat) (intr : ℕ → Bool) :
    ℕ → Model → List Vec → Except Err (Model × Bool)
  | _, m, [] => .ok (m, true)
  | t, m, x :: xs =>
    if intr t then .ok ({ m with balanced_distribution := none }, false)
    else
      match _mahalanobis_distance sqrtf m x with
      | .error e => .error e
      | .ok d =>
        if m.threshold_learning < d then
          match _calculate_mean_and_covariance pinv { m with balanced_distribution := some (m.balanced_distribution.getD [] ++ [x]) } with
          | .error e => .error e
          | .ok m2 => growthLoop sqrtf pinv intr (t + 1) m2 xs
        else growthLoop sqrtf pinv intr (t + 1) m xs

/-- Per-member Mahalanobis distances computed by the logging call on line 114
(`np.mean(np.array([self._mahalanobis_distance(f) for f in
self.balanced_distribution]))`): the values are only logged, but an assertion
failure inside the comprehension would propagate. -/
def distanceScan (sqrtf : ℚ → ℚ) (m : Model) : List Vec → Except Err Unit
  | [] => .ok ()
  | r :: rs =>
    match _mahalanobis_distance sqrtf m r with
    | .error e => .error e
    | .ok _ => distanceScan sqrtf m rs

/-- Pruning loop of `generate_model` (lines 116-139): one interruption check
per iteration (on observation: discard the retained set and return `False`);
otherwise append `prune := dist < threshold_learning * pruning_parameter` to
`prune_filter`.  The loop never mutates the retained set or the statistics;
the returned flag list is in member order.  The final `Bool` is `true` when
the loop ran to completion. -/
def pruneLoop (sqrtf : ℚ → ℚ) (intr : ℕ → Bool) :
    ℕ → Model → List Vec → Except Err (Model × List Bool × Bool)
  | _, m, [] => .ok (m, [], true)
  | t, m, r :: rs =>
    if intr t then .ok ({ m with balanced_distribution := none }, [], false)
    else
      match _mahalanobis_distance sqrtf m r with
      | .error e => .error e
      | .ok d =>
        match pruneLoop sqrtf intr (t + 1) m rs with
        | .error e => .error e
        | .ok (m1, flags, done) =>
          .ok (m1, decide (d < m.threshold_learning * m.pruning_parameter) :: flags, done)

/-- Numpy boolean-mask indexing `balanced_distribution[prune_filter]`: keeps
exactly the entries whose mask value is `True`, in order. -/
def maskSelect (R : List Vec) (flags : List Bool) : List Vec :=
  ((R.zip flags).filter (fun p => p.2)).map (fun p => p.1)

/-- Seeding and growth phase of `generate_model` (lines 70-110): line 72 logs
`len(features_flat[0])` (IndexError on an empty input, before the length
assertion), line 74 asserts `features_flat.shape[0] > initial_normal_features`,
line 79 sets the retained set to the first `initial_normal_features` vectors
unconditionally, line 83 fits, then the growth loop runs over the remaining
vectors. -/
def growPhase (sqrtf : ℚ → ℚ) (pinv : Mat → Mat) (intr : ℕ → Bool)
    (m : Model) (features : List Vec) : Except Err (Model × Bool) :=
  if features.length = 0 then .error .indexError
  else if features.length ≤ m.initial_normal_features then .error .insufficientData
  else
    match _calculate_mean_and_covariance pinv { m with balanced_distribution := some (features.take m.initial_normal_features) } with
    | .error e => .error e
    | .ok m1 => growthLoop sqrtf pinv intr 0 m1 (features.drop m.initial_normal_features)

/-- Pruning phase of `generate_model` (lines 112-146): the distance logging of
line 114, the pruning loop (its interruption counter continues after the
growth loop's `features.length - initial_normal_features` checks), the batch
mask application of line 141, and the final refit of line 145. -/
def prunePhase (sqrtf : ℚ → ℚ) (pinv : Mat → Mat) (intr : ℕ → Bool)
    (t0 : ℕ) (m : Model) : Except Err (Model × Bool) :=
  match distanceScan sqrtf m (m.balanced_distribution.getD []) with
  | .error e => .error e
  | .ok _ =>
    match pruneLoop sqrtf intr t0 m (m.balanced_distribution.getD []) with
    | .error e => .error e
    | .ok (m2, _, false) => .ok (m2, false)
    | .ok (m2, flags, true) =>
      match _calculate_mean_and_covariance pinv { m2 with balanced_distribution := some (maskSelect (m2.balanced_distribution.getD []) flags) } with
      | .error e => .error e
      | .ok m3 => .ok (m3, true)

/-- Body of method `generate_model` from line 70 onward: seeding and growth
followed by pruning; returns `(state, False)` when the run was interrupted
and `(state, True)` on completion.  Under the shipped sources this body is
unreachable — the line-67 base call fails first (see `generate_model`) — but
it is the code text several claims describe, so it is modelled as written. -/
def generate_model_body (sqrtf : ℚ → ℚ) (pinv : Mat → Mat) (intr : ℕ → Bool)
    (m : Model) (features : List Vec) : Except Err (Model × Bool) :=
  match growPhase sqrtf pinv intr m features with
  | .error e => .error e
  | .ok (m1, false) => .ok (m1, false)
  | .ok (m1, true) =>
    prunePhase sqrtf pinv intr (features.length - m.initial_normal_features) m1

/-- Attribute lookup performed by line 67, `AnomalyModelBase.generate_model`:
the shipped `anomalyModelBase.py` defines only the dunder
`__generate_model__`, so the class has no attribute `generate_model` and the
lookup raises AttributeError. -/
def base_generate_model_attr : Except Err Unit := .error .attributeError

/-- Method `generate_model` (lines 66-146).  Its first statement (line 67)
evaluates `AnomalyModelBase.generate_model(self, features)`; under the
shipped base class that attribute lookup raises AttributeError on every call,
so the remainder of the method (`generate_model_body`, lines 70-146) never
runs. -/
def generate_model (sqrtf : ℚ → ℚ) (pinv : Mat → Mat) (intr : ℕ → Bool)
    (m : Model) (features : List Vec) : Except Err (Model × Bool) :=
  match base_generate_model_attr with
  | .error e => .error e
  | .ok _ => generate_model_body sqrtf pinv intr m features

/-- Persisted record: the `balanced_distribution` dataset plus the four scalar
attributes.  The fitted statistics `_mean` and `_covI` have no field here —
nothing in the persistence code reads or writes them. -/
structure H5Record : Type where
  balanced_distribution : List Vec
  initial_normal_features : ℕ
  threshold_learning : ℚ
  threshold_classification : ℚ
  pruning_parameter : ℚ
deriving DecidableEq, Repr

/-- Method `__load_model_from_file__` (lines 149-158): copies the dataset and
the four attributes into the model, asserts `0 < pruning_parameter < 1`, then
recomputes the statistics from the loaded retained set via
`_calculate_mean_and_covariance`. -/
def load_model_from_file (pinv : Mat → Mat) (m : Model) (h : H5Record) :
    Except Err Model :=
  if 0 < h.pruning_parameter ∧ h.pruning_parameter < 1 then
    _calculate_mean_and_covariance pinv { m with balanced_distribution := some h.balanced_distribution, initial_normal_features := h.initial_normal_features, threshold_learning := h.threshold_learning, threshold_classification := h.threshold_classification, pruning_parameter := h.pruning_parameter }
  else .error .invalidParameter

/-- Method `save_model_to_file` (lines 160-166): every statement of the body
writes through the name `h5ffile`, but the parameter is named `h5file` and no
global of that name exists, so the very first statement raises a `NameError`
and nothing is written. -/
def save_model_to_file (m : Model) : Except Err H5Record :=
  .error .nameError

/-- Base-class stub `__generate_model__` (anomalyModelBase.py line 19):
`raise NotImplementedError()`.  The Balanced Distribution subclass defines
the undundered `generate_model`, never this hook, so the driver's dispatch
lands here. -/
def generate_model_dunder : Except Err (Model × Bool) := .error .notImplementedError

/-- Base-class stub `__save_model_to_file__` (anomalyModelBase.py line 45):
`raise NotImplementedError()`.  The subclass defines the undundered
`save_model_to_file`, never this hook. -/
def save_model_to_file_dunder : Except Err H5Record := .error .notImplementedError

/-- Generation-and-write decision of the driver `load_or_generate`
(anomalyModelBase.py lines 104-139; the preceding try-load-from-store path of
lines 69-89 is outside the claims' scope).  Line 107 dispatches
`self.__generate_model__`, which for this subclass is the base's
NotImplementedError stub, so the driver raises before the h5py file is
opened (line 114): no prior record is deleted, no metadata is written, and
the save hook never runs — the store is untouched on every call.  The dead
branches are modelled to their entry: a `False` generation result would
return failure with the store untouched (lines 107-109); a `True` result
would enter the write block — which in the source deletes any prior record
(lines 117-118) and writes run metadata before invoking the save hook
`__save_model_to_file__` (line 134, itself the base stub) — modelled here
only by the dispatch of that stub, since the branch is unreachable behind
the line-107 failure. -/
def load_or_generate (patches : List Vec) (store : Option H5Record) :
    Except Err (Option H5Record × Bool) :=
  match generate_model_dunder with
  | .error e => .error e
  | .ok (_, false) => .ok (store, false)
  | .ok (_, true) =>
    match save_model_to_file_dunder with
    | .error e => .error e
    | .ok r => .ok (some r, true)

/-- Concrete pseudo-inverse instance for witnesses: on a 1×1 matrix `[[c]]`,
`[[c⁻¹]]` is exactly the Moore-Penrose pseudo-inverse (including
`pinv [[0]] = [[0]]`, since `(0 : ℚ)⁻¹ = 0`). -/
def pinv1 (M : Mat) : Mat := [[((M.headD []).headD 0)⁻¹]]

/-- Specification-side growth recursion, transcribed from §4.2 of the design
document: carry the retained set together with the statistics of its latest
fit; append a candidate exactly when its distance under those statistics
strictly exceeds the learning threshold, refitting immediately after each
acceptance; a rejected candidate changes nothing. -/
def growthRef (sqrtf : ℚ → ℚ) (pinv : Mat → Mat) (α : ℚ) :
    List Vec → Vec → Mat → List Vec → List Vec
  | R, _, _, [] => R
  | R, μ, covI, x :: xs =>
    if α < mahaVal sqrtf μ covI x then
      growthRef sqrtf pinv α (R ++ [x]) (vecMean (R ++ [x]))
        (pinv (covMatrix (R ++ [x]))) xs
    else growthRef sqrtf pinv α R μ covI xs

/-- Specification-side pruning, transcribed from §4.3 of the design document:
under statistics fixed for the whole pass, remove exactly the members whose
distance is strictly below the cutoff `α·η`; survivors keep their order. -/
def pruneRef (sqrtf : ℚ → ℚ) (μ : Vec) (covI : Mat) (cutoff : ℚ)
    (R : List Vec) : List Vec :=
  R.filter (fun r => !(decide (mahaVal sqrtf μ covI r < cutoff)))

/-- Retained set produced by the specification-side growth procedure of §4.2
run from scratch on an input sequence: seed with the first `N` vectors
unconditionally, fit, then process the remainder in order. -/
def growthRefFrom (sqrtf : ℚ → ℚ) (pinv : Mat → Mat) (α : ℚ) (N : ℕ)
    (features : List Vec) : List Vec :=
  growthRef sqrtf pinv α (features.take N) (vecMean (features.take N))
    (pinv (covMatrix (features.take N))) (features.drop N)

/-- Concrete 1-D instance (N=2, α=2, β=5, η=1/2), freshly constructed. -/
def mW : Model := ⟨2, 2, 5, 1/2, none, none, none⟩

/-- Concrete 1-D instance (N=2, α=7, β=5, η=1/7), freshly constructed. -/
def mC2ex : Model := ⟨2, 7, 5, 1/7, none, none, none⟩

/-- Concrete 1-D instance (N=2, α=7, β=5, η=1/14), freshly constructed. -/
def mC4ex : Model := ⟨2, 7, 5, 1/14, none, none, none⟩

/-- Concrete instance whose retained set is the single vector `[5]`. -/
def mSing : Model := ⟨2, 20, 5, 1/2, some [[5]], none, none⟩

/-- Concrete fitted 1-D instance: retained set `[[0]]`, cached statistics
`_mean = [0]`, `_covI = [[1]]`. -/
def mFit : Model := ⟨2, 2, 5, 1/2, some [[0]], some [0], some [[1]]⟩

/-- Concrete unfitted 1-D instance with retained set `[[0],[2]]` and no
cached statistics (as right after loading raw data). -/
def mUnfit : Model := ⟨2, 2, 5, 1/2, some [[0],[2]], none, none⟩

/-- Concrete 1-D instance with N=3. -/
def mN3 : Model := ⟨3, 2, 5, 1/2, none, none, none⟩

/-- Concrete persisted record with a valid pruning parameter. -/
def recW : H5Record := ⟨[[0], [4]], 2, 2, 5, 1/2⟩

/-- Concrete persisted record whose stored pruning parameter is 1. -/
def recBad : H5Record := ⟨[[0], [4]], 2, 2, 5, 1⟩

/-- Specification-side growth run on the concrete input `[[0],[2],[5]]` with
seed size 2 and learning threshold 2 (evaluates to `[[0],[2],[5]]`). -/
def GW : List Vec :=
  growthRef id pinv1 2 [[0], [2]] (vecMean [[0], [2]])
    (pinv1 (covMatrix [[0], [2]])) [[5]]

/-- Concrete post-growth state of `mW` on the input `[[0],[2],[5]]`. -/
def mWG : Model := ⟨2, 2, 5, 1/2, some [[0], [2], [5]], some [7/3], some [[3/19]]⟩

/-- Concrete state after an interrupted run of the (unreachable) generation
body on `mW`: the seed `[[0],[2]]` was fitted (mean 1, inverse covariance
1/2), then the growth loop observed the signal and discarded the retained
set. -/
def mWi : Model := ⟨2, 2, 5, 1/2, none, some [1], some [[1/2]]⟩

/-- Interruption predicate that never fires (no SIGINT during the run). -/
def intrNever : ℕ → Bool := fun _ => false

/-- Interruption predicate that is already set when the run starts (SIGINT
before the first loop check; the handler flag is sticky). -/
def intrAlways : ℕ → Bool := fun _ => true

theorem fit_ok (pinv : Mat → Mat) (m : Model) (R : List Vec)
    (hbd : m.balanced_distribution = some R) (hR : 2 ≤ R.length) :
    _calculate_mean_and_covariance pinv m =
      .ok { m with _mean := some (vecMean R),
                   _covI := some (pinv (covMatrix R)) } := by
  unfold _calculate_mean_and_covariance
  rw [hbd]
  have h0 : ¬ R.length = 0 := by omega
  have h1 : ¬ R.length = 1 := by omega
  simp [h0, h1]

theorem maha_ok_val (sqrtf : ℚ → ℚ) (m : Model) (x μ : Vec) (covI : Mat)
    (d : ℚ) (hμ : m._mean = some μ) (hC : m._covI = some covI)
    (h : _mahalanobis_distance sqrtf m x = .ok d) :
    d = mahaVal sqrtf μ covI x := by
  have hred : _mahalanobis_distance sqrtf m x =
      (if x.length = μ.length ∧ μ.length = covI.length ∧
          covI.length = (covI.headD []).length then
        Except.ok (mahaVal sqrtf μ covI x)
      else Except.error Err.shapeMismatch) := by
    unfold _mahalanobis_distance
    rw [hμ, hC]
  rw [hred] at h
  split at h
  · exact (Except.ok.inj h).symm
  · cases h

theorem growthLoop_cons_intr (sqrtf : ℚ → ℚ) (pinv : Mat → Mat)
    (intr : ℕ → Bool) (t : ℕ) (m : Model) (x : Vec) (xs : List Vec)
    (hi : intr t = true) :
    growthLoop sqrtf pinv intr t m (x :: xs) =
      .ok ({ m with balanced_distribution := none }, false) := by
  simp [growthLoop, hi]

theorem growthLoop_cons_err (sqrtf : ℚ → ℚ) (pinv : Mat → Mat)
    (intr : ℕ → Bool) (t : ℕ) (m : Model) (x : Vec) (xs : List Vec)
    (hi : intr t = false) (e : Err)
    (hmd : _mahalanobis_distance sqrtf m x = .error e) :
    growthLoop sqrtf pinv intr t m (x :: xs) = .error e := by
  simp [growthLoop, hi, hmd]

theorem growthLoop_cons_accept (sqrtf : ℚ → ℚ) (pinv : Mat → Mat)
    (intr : ℕ → Bool) (t : ℕ) (m : Model) (x : Vec) (xs : List Vec)
    (hi : intr t = false) (d : ℚ)
    (hmd : _mahalanobis_distance sqrtf m x = .ok d)
    (hacc : m.threshold_learning < d) (m2 : Model)
    (hfit : _calculate_mean_and_covariance pinv { m with balanced_distribution := some (m.balanced_distribution.getD [] ++ [x]) } = .ok m2) :
    growthLoop sqrtf pinv intr t m (x :: xs) =
      growthLoop sqrtf pinv intr (t + 1) m2 xs := by
  simp [growthLoop, hi, hmd, hacc, hfit]

theorem growthLoop_cons_accept_err (sqrtf : ℚ → ℚ) (pinv : Mat → Mat)
    (intr : ℕ → Bool) (t : ℕ) (m : Model) (x : Vec) (xs : List Vec)
    (hi : intr t = false) (d : ℚ)
    (hmd : _mahalanobis_distance sqrtf m x = .ok d)
    (hacc : m.threshold_learning < d) (e : Err)
    (hfit : _calculate_mean_and_covariance pinv { m with balanced_distribution := some (m.balanced_distribution.getD [] ++ [x]) } = .error e) :
    growthLoop sqrtf pinv intr t m (x :: xs) = .error e := by
  simp [growthLoop, hi, hmd, hacc, hfit]

theorem growthLoop_cons_reject (sqrtf : ℚ → ℚ) (pinv : Mat → Mat)
    (intr : ℕ → Bool) (t : ℕ) (m : Model) (x : Vec) (xs : List Vec)
    (hi : intr t = false) (d : ℚ)
    (hmd : _mahalanobis_distance sqrtf m x = .ok d)
    (hrej : ¬ m.threshold_learning < d) :
    growthLoop sqrtf pinv intr t m (x :: xs) =
      growthLoop sqrtf pinv intr (t + 1) m xs := by
  simp [growthLoop, hi, hmd, hrej]

theorem growthLoop_refines (sqrtf : ℚ → ℚ) (pinv : Mat → Mat)
    (intr : ℕ → Bool) :
    ∀ (xs : List Vec) (t : ℕ) (m : Model) (R : List Vec) (m' : Model)
      (G : List Vec),
    m.balanced_distribution = some R →
    m._mean = some (vecMean R) →
    m._covI = some (pinv (covMatrix R)) →
    R ≠ [] →
    growthLoop sqrtf pinv intr t m xs = .ok (m', true) →
    G = growthRef sqrtf pinv m.threshold_learning R (vecMean R)
          (pinv (covMatrix R)) xs →
    m' = { m with balanced_distribution := some G,
                  _mean := some (vecMean G),
                  _covI := some (pinv (covMatrix G)) } := by
  intro xs
  induction xs with
  | nil =>
    intro t m R m' G hbd hm hc hRne hrun hG
    simp only [growthLoop, Except.ok.injEq, Prod.mk.injEq, and_true] at hrun
    subst hrun
    simp only [growthRef] at hG
    subst hG
    obtain ⟨f1, f2, f3, f4, f5, f6, f7⟩ := m
    simp_all
  | cons x xs ih =>
    intro t m R m' G hbd hm hc hRne hrun hG
    cases hi : intr t with
    | true =>
      rw [growthLoop_cons_intr sqrtf pinv intr t m x xs hi] at hrun
      simp at hrun
    | false =>
      cases hmd : _mahalanobis_distance sqrtf m x with
      | error e =>
        rw [growthLoop_cons_err sqrtf pinv intr t m x xs hi e hmd] at hrun
        simp at hrun
      | ok d =>
        have hd : d = mahaVal sqrtf (vecMean R) (pinv (covMatrix R)) x :=
          maha_ok_val sqrtf m x (vecMean R) (pinv (covMatrix R)) d hm hc hmd
        have hgd : m.balanced_distribution.getD [] = R := by
          rw [hbd]
          rfl
        by_cases hacc : m.threshold_learning < d
        · have hfit2 : _calculate_mean_and_covariance pinv { m with balanced_distribution := some (m.balanced_distribution.getD [] ++ [x]) } = .ok { m with balanced_distribution := some (R ++ [x]), _mean := some (vecMean (R ++ [x])), _covI := some (pinv (covMatrix (R ++ [x]))) } := by
            rw [hgd]
            refine fit_ok pinv { m with balanced_distribution := some (R ++ [x]) }
              (R ++ [x]) rfl ?_
            have hpos : 0 < R.length := List.length_pos.mpr hRne
            simp only [List.length_append, List.length_singleton]
            omega
          rw [growthLoop_cons_accept sqrtf pinv intr t m x xs hi d hmd hacc _ hfit2] at hrun
          have hG2 : G = growthRef sqrtf pinv m.threshold_learning (R ++ [x])
              (vecMean (R ++ [x])) (pinv (covMatrix (R ++ [x]))) xs := by
            rw [hG, growthRef, if_pos (hd ▸ hacc)]
          exact ih (t + 1) { m with balanced_distribution := some (R ++ [x]), _mean := some (vecMean (R ++ [x])), _covI := some (pinv (covMatrix (R ++ [x]))) } (R ++ [x]) m' G rfl rfl rfl (by simp) hrun hG2
        · rw [growthLoop_cons_reject sqrtf pinv intr t m x xs hi d hmd hacc] at hrun
          have hG2 : G = growthRef sqrtf pinv m.threshold_learning R
              (vecMean R) (pinv (covMatrix R)) xs := by
            rw [hG, growthRef, if_neg (hd ▸ hacc)]
          exact ih (t + 1) m R m' G hbd hm hc hRne hrun hG2

theorem growPhase_ok_shape (sqrtf : ℚ → ℚ) (pinv : Mat → Mat)
    (intr : ℕ → Bool) (m : Model) (features : List Vec) (mg : Model)
    (h : growPhase sqrtf pinv intr m features = .ok (mg, true)) :
    mg = { m with
      balanced_distribution := some (growthRefFrom sqrtf pinv
        m.threshold_learning m.initial_normal_features features),
      _mean := some (vecMean (growthRefFrom sqrtf pinv
        m.threshold_learning m.initial_normal_features features)),
      _covI := some (pinv (covMatrix (growthRefFrom sqrtf pinv
        m.threshold_learning m.initial_normal_features features))) } := by
  unfold growPhase at h
  by_cases h0 : features.length = 0
  · rw [if_pos h0] at h
    cases h
  rw [if_neg h0] at h
  by_cases hN : features.length ≤ m.initial_normal_features
  · rw [if_pos hN] at h
    cases h
  rw [if_neg hN] at h
  by_cases hsd : features.take m.initial_normal_features = []
  · have hfe : _calculate_mean_and_covariance pinv { m with balanced_distribution := some (features.take m.initial_normal_features) } = .error .emptyDistribution := by
      unfold _calculate_mean_and_covariance
      simp [hsd]
    rw [hfe] at h
    cases h
  by_cases hsd1 : (features.take m.initial_normal_features).length = 1
  · have hfe : _calculate_mean_and_covariance pinv { m with balanced_distribution := some (features.take m.initial_normal_features) } = .error .linAlgError := by
      unfold _calculate_mean_and_covariance
      simp [hsd1]
    rw [hfe] at h
    cases h
  · have h2 : 2 ≤ (features.take m.initial_normal_features).length := by
      have hpos : 0 < (features.take m.initial_normal_features).length :=
        List.length_pos.mpr hsd
      omega
    rw [fit_ok pinv { m with balanced_distribution := some (features.take m.initial_normal_features) } (features.take m.initial_normal_features) rfl h2] at h
    exact growthLoop_refines sqrtf pinv intr
      (features.drop m.initial_normal_features) 0
      { m with balanced_distribution := some (features.take m.initial_normal_features), _mean := some (vecMean (features.take m.initial_normal_features)), _covI := some (pinv (covMatrix (features.take m.initial_normal_features))) }
      (features.take m.initial_normal_features) mg
      (growthRefFrom sqrtf pinv m.threshold_learning m.initial_normal_features features)
      rfl rfl rfl hsd h rfl

theorem pruneLoop_cons_intr (sqrtf : ℚ → ℚ) (intr : ℕ → Bool) (t : ℕ)
    (m : Model) (r : Vec) (rs : List Vec) (hi : intr t = true) :
    pruneLoop sqrtf intr t m (r :: rs) =
      .ok ({ m with balanced_distribution := none }, [], false) := by
  simp [pruneLoop, hi]

theorem pruneLoop_cons_err (sqrtf : ℚ → ℚ) (intr : ℕ → Bool) (t : ℕ)
    (m : Model) (r : Vec) (rs : List Vec) (hi : intr t = false) (e : Err)
    (hmd : _mahalanobis_distance sqrtf m r = .error e) :
    pruneLoop sqrtf intr t m (r :: rs) = .error e := by
  simp [pruneLoop, hi, hmd]

theorem pruneLoop_cons_rec_err (sqrtf : ℚ → ℚ) (intr : ℕ → Bool) (t : ℕ)
    (m : Model) (r : Vec) (rs : List Vec) (hi : intr t = false) (d : ℚ)
    (hmd : _mahalanobis_distance sqrtf m r = .ok d) (e : Err)
    (hrec : pruneLoop sqrtf intr (t + 1) m rs = .error e) :
    pruneLoop sqrtf intr t m (r :: rs) = .error e := by
  simp [pruneLoop, hi, hmd, hrec]

theorem pruneLoop_cons_rec_ok (sqrtf : ℚ → ℚ) (intr : ℕ → Bool) (t : ℕ)
    (m : Model) (r : Vec) (rs : List Vec) (hi : intr t = false) (d : ℚ)
    (hmd : _mahalanobis_distance sqrtf m r = .ok d) (m1 : Model)
    (flags : List Bool) (done : Bool)
    (hrec : pruneLoop sqrtf intr (t + 1) m rs = .ok (m1, flags, done)) :
    pruneLoop sqrtf intr t m (r :: rs) =
      .ok (m1, decide (d < m.threshold_learning * m.pruning_parameter) :: flags, done) := by
  simp [pruneLoop, hi, hmd, hrec]

theorem pruneLoop_completed (sqrtf : ℚ → ℚ) (intr : ℕ → Bool) :
    ∀ (rs : List Vec) (t : ℕ) (m : Model) (m' : Model) (flags : List Bool)
      (μ : Vec) (C : Mat),
    m._mean = some μ →
    m._covI = some C →
    pruneLoop sqrtf intr t m rs = .ok (m', flags, true) →
    m' = m ∧ flags = rs.map (fun r =>
      decide (mahaVal sqrtf μ C r < m.threshold_learning * m.pruning_parameter)) := by
  intro rs
  induction rs with
  | nil =>
    intro t m m' flags μ C hμ hC hrun
    simp only [pruneLoop, Except.ok.injEq, Prod.mk.injEq] at hrun
    obtain ⟨h1, h2, _⟩ := hrun
    exact ⟨h1.symm, by simp [h2.symm]⟩
  | cons r rs ih =>
    intro t m m' flags μ C hμ hC hrun
    cases hi : intr t with
    | true =>
      rw [pruneLoop_cons_intr sqrtf intr t m r rs hi] at hrun
      simp at hrun
    | false =>
      cases hmd : _mahalanobis_distance sqrtf m r with
      | error e =>
        rw [pruneLoop_cons_err sqrtf intr t m r rs hi e hmd] at hrun
        cases hrun
      | ok d =>
        cases hrec : pruneLoop sqrtf intr (t + 1) m rs with
        | error e =>
          rw [pruneLoop_cons_rec_err sqrtf intr t m r rs hi d hmd e hrec] at hrun
          cases hrun
        | ok res =>
          obtain ⟨m1, flags1, done1⟩ := res
          rw [pruneLoop_cons_rec_ok sqrtf intr t m r rs hi d hmd m1 flags1 done1 hrec] at hrun
          simp only [Except.ok.injEq, Prod.mk.injEq] at hrun
          obtain ⟨h1, h2, h3⟩ := hrun
          subst h1 h3
          obtain ⟨hm1, hflags1⟩ := ih (t + 1) m m1 flags1 μ C hμ hC hrec
          have hd : d = mahaVal sqrtf μ C r :=
            maha_ok_val sqrtf m r μ C d hμ hC hmd
          constructor
          · exact hm1
          · rw [← h2, hflags1, List.map_cons, hd]

theorem growthLoop_interrupted (sqrtf : ℚ → ℚ) (pinv : Mat → Mat)
    (intr : ℕ → Bool) :
    ∀ (xs : List Vec) (t : ℕ) (m : Model) (m' : Model),
    growthLoop sqrtf pinv intr t m xs = .ok (m', false) →
    m'.balanced_distribution = none := by
  intro xs
  induction xs with
  | nil =>
    intro t m m' hrun
    simp [growthLoop] at hrun
  | cons x xs ih =>
    intro t m m' hrun
    cases hi : intr t with
    | true =>
      rw [growthLoop_cons_intr sqrtf pinv intr t m x xs hi] at hrun
      simp only [Except.ok.injEq, Prod.mk.injEq] at hrun
      rw [← hrun.1]
    | false =>
      cases hmd : _mahalanobis_distance sqrtf m x with
      | error e =>
        rw [growthLoop_cons_err sqrtf pinv intr t m x xs hi e hmd] at hrun
        cases hrun
      | ok d =>
        by_cases hacc : m.threshold_learning < d
        · cases hfit : _calculate_mean_and_covariance pinv { m with balanced_distribution := some (m.balanced_distribution.getD [] ++ [x]) } with
          | error e =>
            rw [growthLoop_cons_accept_err sqrtf pinv intr t m x xs hi d hmd hacc e hfit] at hrun
            cases hrun
          | ok m2 =>
            rw [growthLoop_cons_accept sqrtf pinv intr t m x xs hi d hmd hacc m2 hfit] at hrun
            exact ih (t + 1) m2 m' hrun
        · rw [growthLoop_cons_reject sqrtf pinv intr t m x xs hi d hmd hacc] at hrun
          exact ih (t + 1) m m' hrun

theorem pruneLoop_interrupted (sqrtf : ℚ → ℚ) (intr : ℕ → Bool) :
    ∀ (rs : List Vec) (t : ℕ) (m : Model) (m' : Model) (flags : List Bool),
    pruneLoop sqrtf intr t m rs = .ok (m', flags, false) →
    m'.balanced_distribution = none := by
  intro rs
  induction rs with
  | nil =>
    intro t m m' flags hrun
    simp [pruneLoop] at hrun
  | cons r rs ih =>
    intro t m m' flags hrun
    cases hi : intr t with
    | true =>
      rw [pruneLoop_cons_intr sqrtf intr t m r rs hi] at hrun
      simp only [Except.ok.injEq, Prod.mk.injEq] at hrun
      rw [← hrun.1]
    | false =>
      cases hmd : _mahalanobis_distance sqrtf m r with
      | error e =>
        rw [pruneLoop_cons_err sqrtf intr t m r rs hi e hmd] at hrun
        cases hrun
      | ok d =>
        cases hrec : pruneLoop sqrtf intr (t + 1) m rs with
        | error e =>
          rw [pruneLoop_cons_rec_err sqrtf intr t m r rs hi d hmd e hrec] at hrun
          cases hrun
        | ok res =>
          obtain ⟨m1, flags1, done1⟩ := res
          rw [pruneLoop_cons_rec_ok sqrtf intr t m r rs hi d hmd m1 flags1 done1 hrec] at hrun
          simp only [Except.ok.injEq, Prod.mk.injEq] at hrun
          obtain ⟨h1, _, h3⟩ := hrun
          subst h1 h3
          exact ih (t + 1) m m1 flags1 hrec

theorem growPhase_interrupted (sqrtf : ℚ → ℚ) (pinv : Mat → Mat)
    (intr : ℕ → Bool) (m : Model) (features : List Vec) (m' : Model)
    (h : growPhase sqrtf pinv intr m features = .ok (m', false)) :
    m'.balanced_distribution = none := by
  unfold growPhase at h
  split at h
  · cases h
  · split at h
    · cases h
    · split at h
      · cases h
      · exact growthLoop_interrupted sqrtf pinv intr _ 0 _ m' h

theorem prunePhase_interrupted (sqrtf : ℚ → ℚ) (pinv : Mat → Mat)
    (intr : ℕ → Bool) (t0 : ℕ) (m : Model) (m' : Model)
    (h : prunePhase sqrtf pinv intr t0 m = .ok (m', false)) :
    m'.balanced_distribution = none := by
  unfold prunePhase at h
  split at h
  · cases h
  · split at h
    · cases h
    · next m2 flags2 heq =>
      simp only [Except.ok.injEq, Prod.mk.injEq] at h
      obtain ⟨h1, _⟩ := h
      subst h1
      exact pruneLoop_interrupted sqrtf intr _ t0 m m2 flags2 heq
    · split at h
      · cases h
      · simp at h

theorem generate_body_interrupted (sqrtf : ℚ → ℚ) (pinv : Mat → Mat)
    (intr : ℕ → Bool) (m : Model) (features : List Vec) (m' : Model)
    (h : generate_model_body sqrtf pinv intr m features = .ok (m', false)) :
    m'.balanced_distribution = none := by
  unfold generate_model_body at h
  split at h
  · cases h
  · next m1 heq =>
    simp only [Except.ok.injEq, Prod.mk.injEq] at h
    obtain ⟨h1, _⟩ := h
    subst h1
    exact growPhase_interrupted sqrtf pinv intr m features m1 heq
  · exact prunePhase_interrupted sqrtf pinv intr _ _ m' h

/-- Claim C1, judged against the shipped program: the claimed
seeding-and-growth behaviour never executes — the first statement of
`generate_model` (line 67) evaluates `AnomalyModelBase.generate_model`, an
attribute the shipped base class does not have, so every call fails with
AttributeError before the retained set is seeded.  The discipline the claim
describes is, however, exactly what the unreachable remainder of the method
implements: its seeding-and-growth phase places the first N input vectors in
the retained set unconditionally, fits, then appends each later vector in
input order exactly when its distance under the currently cached statistics
strictly exceeds the learning threshold, refitting immediately after each
acceptance and mutating nothing on a rejection — formally, `growPhase`
produces precisely the state of the specification recursion `growthRef`
started from the unconditional seed and its fitted statistics. -/
theorem claim_c1_growth_acceptance (sqrtf : ℚ → ℚ) (pinv : Mat → Mat)
    (intr : ℕ → Bool) (m : Model) (features : List Vec) (mg : Model)
    (seed G : List Vec)
    (hseed : seed = features.take m.initial_normal_features)
    (hG : G = growthRef sqrtf pinv m.threshold_learning seed (vecMean seed)
      (pinv (covMatrix seed)) (features.drop m.initial_normal_features)) :
    generate_model sqrtf pinv intr m features = .error .attributeError ∧
    (growPhase sqrtf pinv intr m features = .ok (mg, true) →
      mg = { m with balanced_distribution := some G,
                    _mean := some (vecMean G),
                    _covI := some (pinv (covMatrix G)) }) := by
  constructor
  · rfl
  · intro hrun
    subst hseed
    subst hG
    exact growPhase_ok_shape sqrtf pinv intr m features mg hrun

/-- Witness for C1 at a concrete 1-D input: the shipped method fails with
AttributeError, while the unreachable body's growth phase on seed `[[0],[2]]`
(mean 1, unbiased variance 2) accepts the candidate `[5]` (squared distance
8 > α = 2) with an immediate refit (mean 7/3, inverse covariance 3/19). -/
theorem claim_c1_growth_acceptance_witness :
    generate_model id pinv1 intrNever mW [[0], [2], [5]] =
      .error .attributeError ∧
    growPhase id pinv1 intrNever mW [[0], [2], [5]] = .ok (mWG, true) ∧
    mWG = { mW with balanced_distribution := some GW,
                    _mean := some (vecMean GW),
                    _covI := some (pinv1 (covMatrix GW)) } := by
  have hrun : growPhase id pinv1 intrNever mW [[0], [2], [5]] = .ok (mWG, true) := by
    norm_num [growPhase, growthLoop, _calculate_mean_and_covariance,
      _mahalanobis_distance, mahaVal, vecMean, covMatrix, covEntry, colSum,
      dimOf, vsub, dotQ, vecMat, colOf, pinv1, intrNever, mW, mWG,
      List.range_succ]
  have h := claim_c1_growth_acceptance id pinv1 intrNever mW [[0], [2], [5]]
    mWG [[0], [2]] GW rfl rfl
  exact ⟨h.1, hrun, h.2 hrun⟩

/-- Claim C10 (implicit invariant), judged against the shipped program: the
invariant's subject is dead code — every `generate_model` call raises the
line-67 AttributeError, so no distance is ever computed during generation.
Of the unreachable loop code the invariant is proved: (1) when the growth
phase returns, the cached statistics are exactly a fit of the full
post-growth retained set (every acceptance is followed immediately by a
refit, so no staleness survives); (2) the pruning loop performs no fit of
its own and never mutates the state, so every member flag it produces is the
comparison of the member's distance under those fixed entry statistics — the
fit of the full post-growth set — with α·η. -/
theorem claim_c10_stats_invariant (sqrtf : ℚ → ℚ) (pinv : Mat → Mat)
    (intr : ℕ → Bool) (m mg m2 : Model) (features rs : List Vec)
    (flags : List Bool) (t : ℕ) (μ : Vec) (C : Mat) :
    generate_model sqrtf pinv intr m features = .error .attributeError ∧
    (growPhase sqrtf pinv intr m features = .ok (mg, true) →
      mg._mean = some (vecMean (mg.balanced_distribution.getD [])) ∧
      mg._covI = some (pinv (covMatrix (mg.balanced_distribution.getD [])))) ∧
    (mg._mean = some μ → mg._covI = some C →
      pruneLoop sqrtf intr t mg rs = .ok (m2, flags, true) →
      m2 = mg ∧ flags = rs.map (fun r =>
        decide (mahaVal sqrtf μ C r < mg.threshold_learning * mg.pruning_parameter))) := by
  refine ⟨rfl, ?_, ?_⟩
  · intro hrun
    rw [growPhase_ok_shape sqrtf pinv intr m features mg hrun]
    exact ⟨rfl, rfl⟩
  · intro hμ hC hrun
    exact pruneLoop_completed sqrtf intr rs t mg m2 flags μ C hμ hC hrun

/-- Witness for C10 at a concrete 1-D run of the unreachable body: the growth
phase of `mW` on `[[0],[2],[5]]` ends with statistics (mean 7/3, inverse
covariance 3/19) fitted to the full post-growth set `[[0],[2],[5]]`, and the
pruning loop over that set under those fixed statistics produces the flags
[T, T, F] for the cutoff α·η = 1 and leaves the state untouched; the shipped
`generate_model` itself fails with AttributeError. -/
theorem claim_c10_stats_invariant_witness :
    generate_model id pinv1 intrNever mW [[0], [2], [5]] =
      .error .attributeError ∧
    growPhase id pinv1 intrNever mW [[0], [2], [5]] = .ok (mWG, true) ∧
    mWG._mean = some (vecMean (mWG.balanced_distribution.getD [])) ∧
    mWG._covI = some (pinv1 (covMatrix (mWG.balanced_distribution.getD []))) ∧
    pruneLoop id intrNever 1 mWG [[0], [2], [5]] = .ok (mWG, [true, true, false], true) ∧
    [true, true, false] = ([[0], [2], [5]] : List Vec).map (fun r =>
      decide (mahaVal id [7/3] [[3/19]] r < mWG.threshold_learning * mWG.pruning_parameter)) := by
  have hrun : growPhase id pinv1 intrNever mW [[0], [2], [5]] = .ok (mWG, true) := by
    norm_num [growPhase, growthLoop, _calculate_mean_and_covariance,
      _mahalanobis_distance, mahaVal, vecMean, covMatrix, covEntry, colSum,
      dimOf, vsub, dotQ, vecMat, colOf, pinv1, intrNever, mW, mWG,
      List.range_succ]
  have hpl : pruneLoop id intrNever 1 mWG [[0], [2], [5]] =
      .ok (mWG, [true, true, false], true) := by
    norm_num [pruneLoop, _mahalanobis_distance, mahaVal, vecMean, covMatrix,
      covEntry, colSum, dimOf, vsub, dotQ, vecMat, colOf, intrNever, mWG,
      List.range_succ]
  have h := claim_c10_stats_invariant id pinv1 intrNever mW mWG mWG
    [[0], [2], [5]] [[0], [2], [5]] [true, true, false] 1 [7/3] [[3/19]]
  have h1 := h.2.1 hrun
  have h2 := h.2.2 rfl rfl hpl
  exact ⟨h.1, hrun, h1.1, h1.2, hpl, h2.2⟩

/-- Claim C3: `classify(x, thresholdOverride)` returns true exactly when the
Mahalanobis distance of `x` from the fitted model strictly exceeds the
threshold in effect — the override when one is given, else the configured
classification threshold β — so a distance exactly equal to the threshold is
classified as not anomalous; and when the statistics are not yet fitted at
call time, they are first fitted lazily from the current retained set (the
returned state is then exactly the fit result, and is unchanged otherwise). -/
theorem claim_c3_classify (sqrtf : ℚ → ℚ) (pinv : Mat → Mat) (m : Model)
    (x : Vec) (thr : Option ℚ) (m' : Model) (b : Bool)
    (hrun : classify sqrtf pinv m x thr = .ok (m', b)) :
    (∀ d, _mahalanobis_distance sqrtf m' x = .ok d →
      (b = true ↔ thr.getD m.threshold_classification < d)) ∧
    (m._mean = none ∨ m._covI = none →
      _calculate_mean_and_covariance pinv m = .ok m') ∧
    (m._mean ≠ none → m._covI ≠ none → m' = m) := by
  unfold classify at hrun
  split at hrun
  · cases hrun
  · next m1 heq =>
    split at hrun
    · cases hrun
    · next d heqd =>
      simp only [Except.ok.injEq, Prod.mk.injEq] at hrun
      obtain ⟨h1, h2⟩ := hrun
      subst h1
      refine ⟨?_, ?_, ?_⟩
      · intro d' hd'
        rw [heqd] at hd'
        rw [← Except.ok.inj hd', ← h2]
        simp
      · intro hc
        rw [if_pos hc] at heq
        exact heq
      · intro hm hcov
        rw [if_neg (by simp [hm, hcov])] at heq
        exact (Except.ok.inj heq).symm

/-- Witness for C3 at the threshold-equality boundary: for the fitted model
`mFit` (mean [0], inverse covariance [[1]], β = 5) and `x = [2]`, the
distance value is 4; with override threshold 4 the result is false (equality
is not anomalous), and with no override the configured β = 5 is in effect,
giving false as well since 4 is not greater than 5. -/
theorem claim_c3_classify_witness :
    classify id pinv1 mFit [2] (some 4) = .ok (mFit, false) ∧
    ((false : Bool) = true ↔ (Option.some (4:ℚ)).getD mFit.threshold_classification < 4) ∧
    classify id pinv1 mFit [2] none = .ok (mFit, false) ∧
    ((false : Bool) = true ↔ (Option.none : Option ℚ).getD mFit.threshold_classification < 4) := by
  have hrun1 : classify id pinv1 mFit [2] (some 4) = .ok (mFit, false) := by
    norm_num [classify, _mahalanobis_distance, mahaVal, vsub, dotQ, vecMat,
      colOf, mFit, Option.some_ne_none, List.range_succ]
  have hrun2 : classify id pinv1 mFit [2] none = .ok (mFit, false) := by
    norm_num [classify, _mahalanobis_distance, mahaVal, vsub, dotQ, vecMat,
      colOf, mFit, Option.some_ne_none, List.range_succ]
  have hd : _mahalanobis_distance id mFit [2] = .ok 4 := by
    norm_num [_mahalanobis_distance, mahaVal, vsub, dotQ, vecMat, colOf,
      mFit, List.range_succ]
  exact ⟨hrun1,
    (claim_c3_classify id pinv1 mFit [2] (some 4) mFit false hrun1).1 4 hd,
    hrun2,
    (claim_c3_classify id pinv1 mFit [2] none mFit false hrun2).1 4 hd⟩

/-- Claim C9: `_mahalanobis_distance` fails with NotFitted whenever it is
called before any successful fit (cached mean or inverse covariance still
absent); for a fitted model whose cached statistics are dimensionally
consistent with the model dimension D, it fails with ShapeMismatch exactly
when the queried vector's length differs from D, and otherwise returns the
scipy value sqrt((x-mean)ᵗ · inverseCovariance · (x-mean)), i.e. `mahaVal`. -/
theorem claim_c9_distance_contract (sqrtf : ℚ → ℚ) (m : Model) (x μ : Vec)
    (C : Mat) :
    (m._mean = none ∨ m._covI = none →
      _mahalanobis_distance sqrtf m x = .error .notFitted) ∧
    (m._mean = some μ → m._covI = some C → μ.length = C.length →
      C.length = (C.headD []).length →
      (x.length ≠ μ.length →
        _mahalanobis_distance sqrtf m x = .error .shapeMismatch) ∧
      (x.length = μ.length →
        _mahalanobis_distance sqrtf m x = .ok (mahaVal sqrtf μ C x))) := by
  constructor
  · intro hc
    rcases hc with h | h
    · cases hco : m._covI with
      | none =>
        unfold _mahalanobis_distance
        rw [h, hco]
      | some c =>
        unfold _mahalanobis_distance
        rw [h, hco]
    · cases hme : m._mean with
      | none =>
        unfold _mahalanobis_distance
        rw [hme, h]
      | some mu =>
        unfold _mahalanobis_distance
        rw [hme, h]
  · intro hμ hC h1 h2
    constructor
    · intro hne
      unfold _mahalanobis_distance
      rw [hμ, hC]
      simp [hne]
    · intro heq
      unfold _mahalanobis_distance
      rw [hμ, hC]
      simp [heq, h1, h2]

/-- Witness for C9: the unfitted model `mUnfit` yields NotFitted; the fitted
1-D model `mFit` yields ShapeMismatch on the length-2 query `[1, 2]` and the
scipy value on the length-1 query `[3]`. -/
theorem claim_c9_distance_contract_witness :
    _mahalanobis_distance id mUnfit [3] = .error .notFitted ∧
    _mahalanobis_distance id mFit [1, 2] = .error .shapeMismatch ∧
    _mahalanobis_distance id mFit [3] = .ok (mahaVal id [0] [[1]] [3]) := by
  refine ⟨(claim_c9_distance_contract id mUnfit [3] [0] [[1]]).1 (Or.inl rfl),
    ((claim_c9_distance_contract id mFit [1, 2] [0] [[1]]).2 rfl rfl rfl rfl).1 (by decide),
    ((claim_c9_distance_contract id mFit [3] [0] [[1]]).2 rfl rfl rfl rfl).2 rfl⟩

/-- Claim C7: constructing a model with pruning parameter η = 0, η = 1, or
otherwise outside the open interval (0,1) fails with InvalidParameter, and
loading a persisted record whose stored pruning parameter violates
0 < η < 1 likewise fails with InvalidParameter, producing no model value. -/
theorem claim_c7_invalid_parameter (N : ℕ) (α β η : ℚ) (pinv : Mat → Mat)
    (m : Model) (h : H5Record) (hη : ¬(0 < η ∧ η < 1)) :
    initModel N α β η = .error .invalidParameter ∧
    (h.pruning_parameter = η →
      load_model_from_file pinv m h = .error .invalidParameter) := by
  constructor
  · unfold initModel
    rw [if_neg hη]
  · intro hrec
    unfold load_model_from_file
    rw [hrec, if_neg hη]

/-- Witness for C7 at η = 1 (a boundary value the claim singles out): both
construction and loading of `recBad` (stored pruning parameter 1) fail. -/
theorem claim_c7_invalid_parameter_witness :
    ¬((0:ℚ) < 1 ∧ (1:ℚ) < 1) ∧
    initModel 2 20 5 1 = .error .invalidParameter ∧
    load_model_from_file pinv1 mW recBad = .error .invalidParameter := by
  have hη : ¬((0:ℚ) < 1 ∧ (1:ℚ) < 1) := by norm_num
  have h := claim_c7_invalid_parameter 2 20 5 1 pinv1 mW recBad hη
  exact ⟨hη, h.1, h.2 rfl⟩

/-- Claim C8, judged against the shipped program: generation never reaches
the length guard — every call of `generate_model`, whatever the input,
raises the line-67 AttributeError first.  The guard the claim describes is
real code text of the unreachable body: there a non-empty input of length at
most N fails with InsufficientData (the line-74 assertion) before the
retained set is seeded or any statistics fitted, while an empty input fails
earlier still with the IndexError of the line-72 logging call, which
evaluates `len(features_flat[0])` before the assertion runs. -/
theorem claim_c8_guard_unreachable (sqrtf : ℚ → ℚ) (pinv : Mat → Mat)
    (intr : ℕ → Bool) (m : Model) (features : List Vec) :
    generate_model sqrtf pinv intr m features = .error .attributeError ∧
    (features ≠ [] → features.length ≤ m.initial_normal_features →
      generate_model_body sqrtf pinv intr m features = .error .insufficientData) ∧
    (features = [] →
      generate_model_body sqrtf pinv intr m features = .error .indexError) := by
  refine ⟨rfl, ?_, ?_⟩
  · intro hne hlen
    unfold generate_model_body growPhase
    rw [if_neg (by simpa using hne), if_pos hlen]
  · intro hemp
    subst hemp
    unfold generate_model_body growPhase
    rw [if_pos (show ([] : List Vec).length = 0 from rfl)]

/-- Witness for C8: the shipped method fails with AttributeError on the
single 1-D vector `[[0]]` with N = 3; the unreachable body would fail with
InsufficientData there, and with IndexError on the empty input. -/
theorem claim_c8_guard_unreachable_witness :
    generate_model id pinv1 intrNever mN3 [[0]] = .error .attributeError ∧
    ([[0]] : List Vec) ≠ [] ∧
    ([[0]] : List Vec).length ≤ mN3.initial_normal_features ∧
    generate_model_body id pinv1 intrNever mN3 [[0]] = .error .insufficientData ∧
    generate_model_body id pinv1 intrNever mW [] = .error .indexError := by
  have h1 := claim_c8_guard_unreachable id pinv1 intrNever mN3 [[0]]
  have h2 := claim_c8_guard_unreachable id pinv1 intrNever mW []
  exact ⟨h1.1, by simp, by norm_num [mN3],
    h1.2.1 (by simp) (by norm_num [mN3]), h2.2.2 rfl⟩

/-- Claim C5 evaluated against the code: every statement of
`save_model_to_file` writes through the name `h5ffile`, but the parameter is
`h5file` and no global of that name exists, so every save attempt raises
NameError and persists nothing — the save-then-load round-trip of the claim
cannot happen.  The load half of the claim does hold: loading a record with a
valid pruning parameter and a stored retained set of at least two rows
installs exactly the four stored hyperparameters and the stored retained set
bit-for-bit, and recomputes mean and inverse covariance from that set (the
record carries no statistics at all); a one-row stored set would instead hit
the same single-sample LinAlgError as C4's refit. -/
theorem claim_c5_save_broken (pinv : Mat → Mat) (m mm : Model) (h : H5Record)
    (hval : 0 < h.pruning_parameter ∧ h.pruning_parameter < 1)
    (hlen : 2 ≤ h.balanced_distribution.length) :
    save_model_to_file m = .error .nameError ∧
    load_model_from_file pinv mm h = .ok { mm with
      balanced_distribution := some h.balanced_distribution,
      initial_normal_features := h.initial_normal_features,
      threshold_learning := h.threshold_learning,
      threshold_classification := h.threshold_classification,
      pruning_parameter := h.pruning_parameter,
      _mean := some (vecMean h.balanced_distribution),
      _covI := some (pinv (covMatrix h.balanced_distribution)) } := by
  constructor
  · rfl
  · unfold load_model_from_file
    rw [if_pos hval]
    exact fit_ok pinv { mm with
      balanced_distribution := some h.balanced_distribution,
      initial_normal_features := h.initial_normal_features,
      threshold_learning := h.threshold_learning,
      threshold_classification := h.threshold_classification,
      pruning_parameter := h.pruning_parameter } h.balanced_distribution rfl hlen

/-- Witness for C5's theorem at the concrete two-row record `recW`. -/
theorem claim_c5_save_broken_witness :
    (0 < recW.pruning_parameter ∧ recW.pruning_parameter < 1) ∧
    2 ≤ recW.balanced_distribution.length ∧
    save_model_to_file mW = .error .nameError ∧
    load_model_from_file pinv1 mW recW = .ok { mW with
      balanced_distribution := some recW.balanced_distribution,
      initial_normal_features := recW.initial_normal_features,
      threshold_learning := recW.threshold_learning,
      threshold_classification := recW.threshold_classification,
      pruning_parameter := recW.pruning_parameter,
      _mean := some (vecMean recW.balanced_distribution),
      _covI := some (pinv1 (covMatrix recW.balanced_distribution)) } := by
  have hval : 0 < recW.pruning_parameter ∧ recW.pruning_parameter < 1 := by
    norm_num [recW]
  have hlen : 2 ≤ recW.balanced_distribution.length := by norm_num [recW]
  have h := claim_c5_save_broken pinv1 mW mW recW hval hlen
  exact ⟨hval, hlen, h.1, h.2⟩

/-- Claim C4, judged against the shipped program and libraries:
`_calculate_mean_and_covariance` guards only against an empty retained set,
so a single-member fit is not detected as degenerate; but it does not cache
NaN statistics either — `np.cov` emits the NaN covariance with only a
RuntimeWarning and `np.linalg.pinv` then raises LinAlgError, an accidental
library crash rather than the designed DegenerateModel failure the claim
requires.  The final-refit scenario (pruning shrinking the set to one
member) is unreachable in the shipped program — `generate_model` raises the
line-67 AttributeError first — and even in the unreachable body that run
ends in the same LinAlgError, not DegenerateModel. -/
theorem claim_c4_no_degenerate_guard (pinv : Mat → Mat) (m : Model)
    (R : List Vec) (hbd : m.balanced_distribution = some R)
    (hlen : R.length = 1) :
    _calculate_mean_and_covariance pinv m = .error .linAlgError ∧
    generate_model id pinv1 intrNever mC4ex [[0], [2], [5]] =
      .error .attributeError ∧
    generate_model_body id pinv1 intrNever mC4ex [[0], [2], [5]] =
      .error .linAlgError := by
  refine ⟨?_, rfl, ?_⟩
  · unfold _calculate_mean_and_covariance
    rw [hbd]
    simp [hlen]
  · norm_num [generate_model_body, growPhase, prunePhase, growthLoop,
      pruneLoop, distanceScan, maskSelect, _calculate_mean_and_covariance,
      _mahalanobis_distance, mahaVal, vecMean, covMatrix, covEntry, colSum,
      dimOf, vsub, dotQ, vecMat, colOf, pinv1, intrNever, mC4ex,
      List.range_succ]

/-- Witness for C4 at the concrete singleton retained set `[[5]]`. -/
theorem claim_c4_no_degenerate_guard_witness :
    mSing.balanced_distribution = some [[5]] ∧
    ([[5]] : List Vec).length = 1 ∧
    _calculate_mean_and_covariance pinv1 mSing = .error .linAlgError := by
  exact ⟨rfl, rfl, (claim_c4_no_degenerate_guard pinv1 mSing [[5]] rfl rfl).1⟩

/-- Claim C2, judged against the shipped program: two distinct code defects
stand between the claim and the program.  First, pruning is unreachable —
every `generate_model` call raises the line-67 AttributeError before either
loop runs.  Second, within the unreachable body the batch-removal line 141,
`balanced_distribution[prune_filter]`, is numpy boolean-mask indexing, which
KEEPS exactly the entries whose mask value is True — the members marked
`prune` because their distance is < α·η — and discards every member with
distance ≥ α·η: the inverse of the removal the claim (and §4.3 of the design
document, transcribed as `pruneRef`) describes.  Concretely (1-D, N = 2,
α = 7, η = 1/7, input [[0],[2],[5]], square root modelled as the identity):
the post-growth set is [[0],[2],[5]] with fitted statistics mean 7/3 and
inverse covariance 3/19; the member distances 49/57, 1/57, 64/57 against the
cutoff α·η = 1 give the flags [T, T, F]; the specification-side pruning
keeps exactly [[5]] (the only member with distance ≥ α·η), but the body
returns [[0],[2]]. -/
theorem claim_c2_pruning_inverted :
    generate_model id pinv1 intrNever mC2ex [[0], [2], [5]] =
      .error .attributeError ∧
    growPhase id pinv1 intrNever mC2ex [[0], [2], [5]] =
      .ok ({ mC2ex with
        balanced_distribution := some [[0], [2], [5]]
        _mean := some [7/3]
        _covI := some [[3/19]] }, true) ∧
    pruneRef id [7/3] [[3/19]]
      (mC2ex.threshold_learning * mC2ex.pruning_parameter) [[0], [2], [5]] =
      [[5]] ∧
    ¬(mahaVal id [7/3] [[3/19]] [5] <
      mC2ex.threshold_learning * mC2ex.pruning_parameter) ∧
    (mahaVal id [7/3] [[3/19]] [0] <
      mC2ex.threshold_learning * mC2ex.pruning_parameter) ∧
    generate_model_body id pinv1 intrNever mC2ex [[0], [2], [5]] =
      .ok ({ mC2ex with
        balanced_distribution := some [[0], [2]]
        _mean := some [1]
        _covI := some [[1/2]] }, true) := by
  refine ⟨rfl, ?_, ?_, ?_, ?_, ?_⟩
  · norm_num [growPhase, growthLoop, _calculate_mean_and_covariance,
      _mahalanobis_distance, mahaVal, vecMean, covMatrix, covEntry, colSum,
      dimOf, vsub, dotQ, vecMat, colOf, pinv1, intrNever, mC2ex,
      List.range_succ]
  · norm_num [pruneRef, mahaVal, vsub, dotQ, vecMat, colOf, mC2ex,
      List.range_succ, List.filter]
  · norm_num [mahaVal, vsub, dotQ, vecMat, colOf, mC2ex, List.range_succ]
  · norm_num [mahaVal, vsub, dotQ, vecMat, colOf, mC2ex, List.range_succ]
  · norm_num [generate_model_body, growPhase, prunePhase, growthLoop,
      pruneLoop, distanceScan, maskSelect, _calculate_mean_and_covariance,
      _mahalanobis_distance, mahaVal, vecMean, covMatrix, covEntry, colSum,
      dimOf, vsub, dotQ, vecMat, colOf, pinv1, intrNever, mC2ex,
      List.range_succ]

/-- Claim C6, judged against the shipped program: the cancellation machinery
is dead code.  The driver `load_or_generate` dispatches the base stub
`__generate_model__` (line 107) and raises NotImplementedError before the
store is opened, so nothing is ever written — but equally no generation and
no cancellation ever runs; a direct `generate_model` call raises the line-67
AttributeError before either loop.  Of the unreachable loop code the claimed
discipline is proved: a loop iteration that observes the signal returns
immediately with the retained set discarded (None) and the failure flag, and
every failed body run carries a discarded retained set. -/
theorem claim_c6_cancellation (sqrtf : ℚ → ℚ) (pinv : Mat → Mat)
    (intr : ℕ → Bool) (t : ℕ) (m : Model) (x r : Vec) (xs rs : List Vec)
    (features patches : List Vec) (store : Option H5Record) (m' : Model) :
    load_or_generate patches store = .error .notImplementedError ∧
    generate_model sqrtf pinv intr m features = .error .attributeError ∧
    (intr t = true → growthLoop sqrtf pinv intr t m (x :: xs) =
      .ok ({ m with balanced_distribution := none }, false)) ∧
    (intr t = true → pruneLoop sqrtf intr t m (r :: rs) =
      .ok ({ m with balanced_distribution := none }, [], false)) ∧
    (generate_model_body sqrtf pinv intr m features = .ok (m', false) →
      m'.balanced_distribution = none) := by
  exact ⟨rfl, rfl,
    fun hi => growthLoop_cons_intr sqrtf pinv intr t m x xs hi,
    fun hi => pruneLoop_cons_intr sqrtf intr t m r rs hi,
    fun hgen => generate_body_interrupted sqrtf pinv intr m features m' hgen⟩

/-- Witness for C6: the shipped driver and method fail with
NotImplementedError and AttributeError respectively, leaving the
pre-existing store `recW` untouched; with the signal already set, the
unreachable loops abort immediately on their first member, and the body run
on `mW` returns failure with the retained set discarded. -/
theorem claim_c6_cancellation_witness :
    load_or_generate [[0], [2], [5]] (some recW) = .error .notImplementedError ∧
    generate_model id pinv1 intrAlways mW [[0], [2], [5]] =
      .error .attributeError ∧
    intrAlways 0 = true ∧
    growthLoop id pinv1 intrAlways 0 mW [[5]] =
      .ok ({ mW with balanced_distribution := none }, false) ∧
    pruneLoop id intrAlways 0 mW [[5]] =
      .ok ({ mW with balanced_distribution := none }, [], false) ∧
    generate_model_body id pinv1 intrAlways mW [[0], [2], [5]] = .ok (mWi, false) ∧
    mWi.balanced_distribution = none := by
  have hgen : generate_model_body id pinv1 intrAlways mW [[0], [2], [5]] =
      .ok (mWi, false) := by
    norm_num [generate_model_body, growPhase, growthLoop,
      _calculate_mean_and_covariance, vecMean, covMatrix, covEntry, colSum,
      dimOf, pinv1, intrAlways, mW, mWi, List.range_succ]
  have h := claim_c6_cancellation id pinv1 intrAlways 0 mW [5] [5] [] []
    [[0], [2], [5]] [[0], [2], [5]] (some recW) mWi
  exact ⟨h.1, h.2.1, rfl, h.2.2.1 rfl, h.2.2.2.1 rfl, hgen,
    h.2.2.2.2 hgen⟩
